import Mathlib

/-!
Shallow embedding of the GeneratePDFs node SDK (src/GeneratePDFs.js and
src/Pdf.js) and proofs of its specification claims.

Modelling conventions:
* JS exceptions become `Except SdkError`; the three error kinds of the SDK
  (`InvalidArgumentException`, `RuntimeException`, and the generic `Error`
  thrown for transport failures) are the three constructors of `SdkError`.
* File-system reads (`existsSync` / `readFileSync`) and HTTP calls (`fetch`)
  are modelled by an explicit environment `Env` mapping paths to optional
  byte lists and requests to responses.  Platform builtins that are not code
  of this repository — `new Date(s)` followed by the `isNaN` check, and the
  WHATWG `new URL(s)` parser — are modelled as the environment functions
  `parseDate : String → Option Int` (`none` = invalid date) and
  `urlValid : String → Bool`.
* Each client operation returns, besides its `Except` result, the list of
  network requests it issued, so that "fails before any network call" is
  the statement that this list is empty.
* Bytes are `List Nat`; `Buffer.toString('base64')` is the executable
  `base64Encode` below.
-/

/-- Error kinds of the SDK: `invalidArgument` embeds
`InvalidArgumentException`, `runtime` embeds `RuntimeException`, and
`generic` embeds a plain `new Error(...)` (transport failures). -/
inductive SdkError where
  | invalidArgument (msg : String)
  | runtime (msg : String)
  | generic (msg : String)
deriving DecidableEq, Repr

/-- Client configuration, as set by `GeneratePDFs.connect` / the constructor:
an API token and the fixed base URL. -/
structure Client where
  apiToken : String
  baseUrl : String
deriving DecidableEq, Repr

/-- Raw server data for one PDF, the decoded `data` field of an API JSON
response (`{id, name, status, download_url, created_at}`); `none` models an
absent field. -/
structure RawPdfData where
  id : Option Int
  name : Option String
  status : Option String
  download_url : Option String
  created_at : Option String
deriving DecidableEq, Repr

/-- JS truthiness of an optional number field: present and nonzero
(`!data.id` is true for a missing field and for `0`). -/
def truthyInt : Option Int → Bool
  | none => false
  | some n => n != 0

/-- JS truthiness of an optional string field: present and nonempty
(`!data.name` is true for a missing field and for `""`). -/
def truthyStr : Option String → Bool
  | none => false
  | some s => s != ""

/-- Guard of `Pdf.fromArray`: all five required fields are present and
truthy (`data.id && data.name && data.status && data.download_url &&
data.created_at`). -/
def RawPdfData.complete (d : RawPdfData) : Bool :=
  truthyInt d.id && truthyStr d.name && truthyStr d.status &&
    truthyStr d.download_url && truthyStr d.created_at

/-- Document handle (`class Pdf`): an immutable snapshot of one generation
job plus a back-reference to the owning client.  `createdAt` is the parsed
timestamp (the JS `Date`'s epoch value). -/
structure Pdf where
  id : Int
  name : String
  status : String
  downloadUrl : String
  createdAt : Int
  client : Client
deriving DecidableEq, Repr

/-- Accessor `Pdf.getId`. -/
def Pdf.getId (p : Pdf) : Int := p.id

/-- Accessor `Pdf.getName`. -/
def Pdf.getName (p : Pdf) : String := p.name

/-- Accessor `Pdf.getStatus`. -/
def Pdf.getStatus (p : Pdf) : String := p.status

/-- Accessor `Pdf.getDownloadUrl`. -/
def Pdf.getDownloadUrl (p : Pdf) : String := p.downloadUrl

/-- Accessor `Pdf.getCreatedAt`. -/
def Pdf.getCreatedAt (p : Pdf) : Int := p.createdAt

/-- Embedding of `Pdf.fromArray(data, client)`.  The structure check throws
`InvalidArgumentException('Invalid PDF data structure')`; then
`new Date(data.created_at)` plus the `isNaN` check is `parseDate`, whose
failure throws `Invalid created_at format: {raw}`.  The source's
`try/catch` re-throws an `InvalidArgumentException` unchanged (`new Date`
on a string never itself throws), so the error is produced exactly once —
the embedding has a single error site for it.  On success the fields are
coerced (`Number`/`String` of already-typed values, identities here). -/
def Pdf.fromArray (parseDate : String → Option Int) (data : RawPdfData)
    (client : Client) : Except SdkError Pdf :=
  if !data.complete then
    .error (.invalidArgument "Invalid PDF data structure")
  else
    let raw := data.created_at.getD ""
    match parseDate raw with
    | none => .error (.invalidArgument ("Invalid created_at format: " ++ raw))
    | some t =>
        .ok { id := data.id.getD 0, name := data.name.getD "",
              status := data.status.getD "", downloadUrl := data.download_url.getD "",
              createdAt := t, client := client }

/-- Embedding of `Pdf.isReady()`: `this.#status === 'completed'`. -/
def Pdf.isReady (p : Pdf) : Bool := p.status == "completed"

/-- Base64 alphabet used by `Buffer.toString('base64')`. -/
def base64Table : List Char :=
  "ABCDEFGHIJKLMNOPQRSTUVWXYZabcdefghijklmnopqrstuvwxyz0123456789+/".toList

/-- Character of the base64 alphabet at a 6-bit index. -/
def b64Char (i : Nat) : Char := base64Table.getD i 'A'

/-- Executable base64 encoding of a byte list, as produced by
`Buffer.toString('base64')` (RFC 4648 with padding). -/
def base64Encode : List Nat → String
  | [] => ""
  | [b1] =>
      String.mk [b64Char (b1 / 4 % 64), b64Char (b1 % 4 * 16), '=', '=']
  | [b1, b2] =>
      String.mk [b64Char (b1 / 4 % 64), b64Char (b1 % 4 * 16 + b2 / 16 % 16),
        b64Char (b2 % 16 * 4), '=']
  | b1 :: b2 :: b3 :: rest =>
      String.mk [b64Char (b1 / 4 % 64), b64Char (b1 % 4 * 16 + b2 / 16 % 16),
        b64Char (b2 % 16 * 4 + b3 / 64 % 4), b64Char (b3 % 64)]
        ++ base64Encode rest

/-- Image input (`{name, path, mimeType?}`) consumed by
`generateFromHtml`. -/
structure ImageInput where
  name : String
  path : String
  mimeType : Option String
deriving DecidableEq, Repr

/-- Processed image (`{name, content, mime_type}`) as placed in the request
payload by `#processImages`. -/
structure ProcessedImage where
  name : String
  content : String
  mime_type : String
deriving DecidableEq, Repr

/-- Extension-to-MIME table of `#detectMimeType`. -/
def mimeTypes : List (String × String) :=
  [("jpg", "image/jpeg"), ("jpeg", "image/jpeg"), ("png", "image/png"),
   ("gif", "image/gif"), ("webp", "image/webp"), ("svg", "image/svg+xml")]

/-- ASCII lower-casing of one character, as `toLowerCase` acts on the
ASCII extensions involved here. -/
def lowerChar (c : Char) : Char :=
  if 65 ≤ c.toNat ∧ c.toNat ≤ 90 then Char.ofNat (c.toNat + 32) else c

/-- ASCII lower-casing of a string (`String.toLowerCase` of JS, restricted
to ASCII). -/
def lowerString (s : String) : String := String.mk (s.data.map lowerChar)

/-- Splitting a character list at every `'.'`, with the semantics of the
JS `split('.')`: always at least one (possibly empty) part, empty parts
kept. -/
def splitOnDot : List Char → List (List Char)
  | [] => [[]]
  | c :: rest =>
      let r := splitOnDot rest
      if c = '.' then [] :: r
      else
        match r with
        | [] => [[c]]
        | h :: t => (c :: h) :: t

/-- Extension extraction of `#detectMimeType`:
`filePath.split('.').pop()?.toLowerCase() ?? ''` (`split` always returns a
nonempty array, so `pop()` never yields `undefined`). -/
def extensionOf (filePath : String) : String :=
  lowerString (String.mk ((splitOnDot filePath.data).getLast?.getD []))

/-- Embedding of `#detectMimeType(filePath)`: the lower-cased last
dot-separated component looked up in the fixed table, defaulting to
`application/octet-stream`. -/
def detectMimeType (filePath : String) : String :=
  (mimeTypes.lookup (extensionOf filePath)).getD "application/octet-stream"

/-- JSON payload of a generation request: either
`{html, css?, images?}` or `{url}`. -/
inductive Payload where
  | htmlPayload (html : String) (css : Option String)
      (images : Option (List ProcessedImage))
  | urlPayload (url : String)
deriving DecidableEq, Repr

/-- Response of the JSON API endpoints as seen by `#makeRequest` /
`#makeGetRequest`: HTTP status information, the body text read on failure,
and the decoded `data` field on success. -/
structure ApiResponse where
  ok : Bool
  status : Nat
  statusText : String
  bodyText : String
  data? : Option RawPdfData
deriving DecidableEq, Repr

/-- Response of a raw download `fetch` as seen by `downloadPdf`. -/
structure FetchResponse where
  ok : Bool
  status : Nat
  statusText : String
  bodyText : String
  bytes : List Nat
deriving DecidableEq, Repr

/-- Network request issued by an operation (recorded so that "fails before
any network call" is expressible). -/
inductive NetRequest where
  | post (endpoint : String) (payload : Payload)
  | get (endpoint : String)
  | getAbs (url : String)
deriving DecidableEq, Repr

/-- Environment: the file system (`existsSync` is `isSome`, `readFileSync`
the bytes), the HTTP layer for POST / GET / absolute-URL fetches, and the
platform builtins `new Date` + `isNaN` (`parseDate`) and `new URL`
(`urlValid`). -/
structure Env where
  fs : String → Option (List Nat)
  post : String → Payload → ApiResponse
  get : String → ApiResponse
  fetchAbs : String → FetchResponse
  parseDate : String → Option Int
  urlValid : String → Bool

/-- Message of the generic transport error thrown by `#makeRequest` /
`#makeGetRequest`:
`API request failed: ${status} ${statusText} - ${errorText}`. -/
def apiErrorMsg (status : Nat) (statusText bodyText : String) : String :=
  "API request failed: " ++ toString status ++ " " ++ statusText ++ " - " ++ bodyText

/-- Shared response handling of the three API operations: `#makeRequest` /
`#makeGetRequest` throw the transport error on a non-ok status; then the
operation throws `Invalid API response: missing data` when the body has no
`data` field, and otherwise builds the handle via `Pdf.fromArray`. -/
def responseToPdf (parseDate : String → Option Int) (r : ApiResponse)
    (client : Client) : Except SdkError Pdf :=
  if !r.ok then
    .error (.generic (apiErrorMsg r.status r.statusText r.bodyText))
  else
    match r.data? with
    | none => .error (.invalidArgument "Invalid API response: missing data")
    | some d => Pdf.fromArray parseDate d client

/-- Embedding of `#processImages(images)`: skip an entry whose `path` or
`name` is falsy or whose path does not exist; otherwise read the file,
base64-encode it, and resolve the MIME type as
`image.mimeType ?? this.#detectMimeType(path)`. -/
def processImages (env : Env) : List ImageInput → List ProcessedImage
  | [] => []
  | image :: rest =>
      if image.path == "" || image.name == "" then processImages env rest
      else
        match env.fs image.path with
        | none => processImages env rest
        | some content =>
            { name := image.name, content := base64Encode content,
              mime_type := image.mimeType.getD (detectMimeType image.path) }
              :: processImages env rest

/-- Embedding of `GeneratePDFs.generateFromHtml(htmlPath, cssPath, images)`.
Validation failures return before any network request; otherwise the
payload `{html, css?, images?}` is POSTed to `/pdfs/generate` (the
`images` field is set exactly when the input list is nonempty, to the
possibly empty processed list). -/
def GeneratePDFs.generateFromHtml (env : Env) (c : Client) (htmlPath : String)
    (cssPath : Option String) (images : List ImageInput) :
    Except SdkError Pdf × List NetRequest :=
  match env.fs htmlPath with
  | none =>
      (.error (.invalidArgument ("HTML file not found or not readable: " ++ htmlPath)), [])
  | some htmlContent =>
      let cssField : Except SdkError (Option String) :=
        match cssPath with
        | none => .ok none
        | some cp =>
            match env.fs cp with
            | none => .error (.invalidArgument ("CSS file not found or not readable: " ++ cp))
            | some cssContent => .ok (some (base64Encode cssContent))
      match cssField with
      | .error e => (.error e, [])
      | .ok css =>
          let imgs : Option (List ProcessedImage) :=
            if images.isEmpty then none else some (processImages env images)
          let payload := Payload.htmlPayload (base64Encode htmlContent) css imgs
          (responseToPdf env.parseDate (env.post "/pdfs/generate" payload) c,
           [NetRequest.post "/pdfs/generate" payload])

/-- Embedding of `GeneratePDFs.generateFromUrl(url)`: `new URL(url)` failing
throws `Invalid URL: {url}` before any network request; otherwise `{url}`
is POSTed to `/pdfs/generate`. -/
def GeneratePDFs.generateFromUrl (env : Env) (c : Client) (url : String) :
    Except SdkError Pdf × List NetRequest :=
  if !env.urlValid url then
    (.error (.invalidArgument ("Invalid URL: " ++ url)), [])
  else
    let payload := Payload.urlPayload url
    (responseToPdf env.parseDate (env.post "/pdfs/generate" payload) c,
     [NetRequest.post "/pdfs/generate" payload])

/-- Embedding of `GeneratePDFs.getPdf(id)`: `id <= 0` throws
`Invalid PDF ID: {id}` before any network request; otherwise a GET to
`/pdfs/{id}`. -/
def GeneratePDFs.getPdf (env : Env) (c : Client) (id : Int) :
    Except SdkError Pdf × List NetRequest :=
  if id ≤ 0 then
    (.error (.invalidArgument ("Invalid PDF ID: " ++ toString id)), [])
  else
    (responseToPdf env.parseDate (env.get ("/pdfs/" ++ toString id)) c,
     [NetRequest.get ("/pdfs/" ++ toString id)])

/-- Embedding of `GeneratePDFs.downloadPdf(downloadUrl)`: one `fetch` of the
absolute URL; a non-ok status throws
`new Error('Failed to download PDF: ' + statusText)`, otherwise the body
bytes are returned. -/
def GeneratePDFs.downloadPdf (env : Env) (c : Client) (downloadUrl : String) :
    Except SdkError (List Nat) × List NetRequest :=
  let r := env.fetchAbs downloadUrl
  if !r.ok then
    (.error (.generic ("Failed to download PDF: " ++ r.statusText)),
     [NetRequest.getAbs downloadUrl])
  else
    (.ok r.bytes, [NetRequest.getAbs downloadUrl])

/-- Embedding of `Pdf.download()`: a not-ready handle throws the
`RuntimeException` before any network request; a ready handle delegates to
the owning client's `downloadPdf` with its own download URL. -/
def Pdf.download (env : Env) (p : Pdf) :
    Except SdkError (List Nat) × List NetRequest :=
  if !p.isReady then
    (.error (.runtime ("PDF is not ready yet. Current status: " ++ p.status)), [])
  else
    GeneratePDFs.downloadPdf env p.client p.downloadUrl

/-- Embedding of `Pdf.refresh()`: delegates to the owning client's
`getPdf` with this handle's identifier, returning a new handle. -/
def Pdf.refresh (env : Env) (p : Pdf) : Except SdkError Pdf × List NetRequest :=
  GeneratePDFs.getPdf env p.client p.id

/-!
Spec-side definitions (written from the specification's words, to be
compared with the source-side embedding above) and shared helper lemmas.
-/

/-- Modelled from the spec: an image input passes local validation when its
name and path are nonempty and the path references an existing readable
file. -/
def imageValid (env : Env) (img : ImageInput) : Bool :=
  !(img.path == "" || img.name == "") && (env.fs img.path).isSome

/-- Modelled from the spec: the processed triple of a valid image input —
its name, the base64 encoding of the file's bytes, and the MIME type
(caller override if present, else inferred from the extension). -/
def processedOf (env : Env) (img : ImageInput) : ProcessedImage :=
  { name := img.name, content := base64Encode ((env.fs img.path).getD []),
    mime_type := img.mimeType.getD (detectMimeType img.path) }

/-- Modelled from the spec: the fixed extension→MIME table
jpg/jpeg→image/jpeg, png→image/png, gif→image/gif, webp→image/webp,
svg→image/svg+xml, anything else→application/octet-stream. -/
def specMimeOfExt (e : String) : String :=
  if e = "jpg" ∨ e = "jpeg" then "image/jpeg"
  else if e = "png" then "image/png"
  else if e = "gif" then "image/gif"
  else if e = "webp" then "image/webp"
  else if e = "svg" then "image/svg+xml"
  else "application/octet-stream"

/-- Invariant of every handle produced by a successful client operation:
truthy coerced fields and a creation timestamp obtained from a successful
date parse. -/
def handleInv (env : Env) (p : Pdf) : Prop :=
  p.getId ≠ 0 ∧ p.getName ≠ "" ∧ p.getStatus ≠ "" ∧ p.getDownloadUrl ≠ "" ∧
    ∃ raw, env.parseDate raw = some p.getCreatedAt

/-- Message carries a rendered status code, the status text, and the body
text, each as a substring. -/
def msgCarriesAll (msg : String) (status : Nat) (statusText bodyText : String) : Prop :=
  (toString status).data <:+: msg.data ∧ statusText.data <:+: msg.data ∧
    bodyText.data <:+: msg.data

theorem truthyInt_iff (o : Option Int) : truthyInt o = true ↔ ∃ n, o = some n ∧ n ≠ 0 := by
  cases o <;> simp [truthyInt]

theorem truthyStr_iff (o : Option String) : truthyStr o = true ↔ ∃ s, o = some s ∧ s ≠ "" := by
  cases o <;> simp [truthyStr]

theorem processImages_filter_map (env : Env) (images : List ImageInput) :
    processImages env images = (images.filter (imageValid env)).map (processedOf env) := by
  induction images with
  | nil => rfl
  | cons img rest ih =>
      by_cases h1 : (img.path == "" || img.name == "") = true
      · simp [processImages, h1, imageValid, List.filter_cons, ih]
      · cases hfs : env.fs img.path with
        | none =>
            simp [processImages, h1, imageValid, hfs, List.filter_cons, ih]
        | some content =>
            simp [processImages, h1, imageValid, hfs, List.filter_cons, ih, processedOf]

theorem lookup_mime_eq_spec (e : String) :
    ((mimeTypes.lookup e).getD "application/octet-stream") = specMimeOfExt e := by
  by_cases h1 : e = "jpg"
  · simp [mimeTypes, List.lookup, specMimeOfExt, h1]
  by_cases h2 : e = "jpeg"
  · simp [mimeTypes, List.lookup, specMimeOfExt, h1, h2]
  by_cases h3 : e = "png"
  · simp [mimeTypes, List.lookup, specMimeOfExt, h1, h2, h3]
  by_cases h4 : e = "gif"
  · simp [mimeTypes, List.lookup, specMimeOfExt, h1, h2, h3, h4]
  by_cases h5 : e = "webp"
  · simp [mimeTypes, List.lookup, specMimeOfExt, h1, h2, h3, h4, h5]
  by_cases h6 : e = "svg"
  · simp [mimeTypes, List.lookup, specMimeOfExt, h1, h2, h3, h4, h5, h6]
  · simp [mimeTypes, List.lookup, specMimeOfExt, h1, h2, h3, h4, h5, h6,
      beq_false_of_ne h1, beq_false_of_ne h2, beq_false_of_ne h3,
      beq_false_of_ne h4, beq_false_of_ne h5, beq_false_of_ne h6]

theorem detectMimeType_eq_spec (p : String) :
    detectMimeType p = specMimeOfExt (extensionOf p) := by
  unfold detectMimeType
  exact lookup_mime_eq_spec _

theorem responseToPdf_not_ok (pd : String → Option Int) (r : ApiResponse) (c : Client)
    (h : r.ok = false) :
    responseToPdf pd r c = .error (.generic (apiErrorMsg r.status r.statusText r.bodyText)) := by
  simp [responseToPdf, h]

theorem apiErrorMsg_carries (status : Nat) (st bt : String) :
    msgCarriesAll (apiErrorMsg status st bt) status st bt := by
  unfold msgCarriesAll apiErrorMsg
  refine ⟨⟨"API request failed: ".data, (" " ++ st ++ " - " ++ bt).data, ?_⟩,
          ⟨("API request failed: " ++ toString status ++ " ").data, (" - " ++ bt).data, ?_⟩,
          ⟨("API request failed: " ++ toString status ++ " " ++ st ++ " - ").data, [], ?_⟩⟩ <;>
    simp [String.data_append]

theorem fromArray_ok_inv (env : Env) (d : RawPdfData) (c : Client) (p : Pdf)
    (h : Pdf.fromArray env.parseDate d c = .ok p) : handleInv env p := by
  unfold Pdf.fromArray at h
  cases hcomp : d.complete with
  | false => simp [hcomp] at h
  | true =>
      simp only [hcomp, Bool.not_true, Bool.false_eq_true, if_false, ite_false] at h
      simp only [RawPdfData.complete, Bool.and_eq_true] at hcomp
      obtain ⟨⟨⟨⟨hid, hname⟩, hstat⟩, hurl⟩, hca⟩ := hcomp
      obtain ⟨n, hn, hn0⟩ := (truthyInt_iff _).mp hid
      obtain ⟨sn, hsn, hsn0⟩ := (truthyStr_iff _).mp hname
      obtain ⟨ss, hss, hss0⟩ := (truthyStr_iff _).mp hstat
      obtain ⟨su, hsu, hsu0⟩ := (truthyStr_iff _).mp hurl
      obtain ⟨sc, hsc, _⟩ := (truthyStr_iff _).mp hca
      rw [hsc] at h
      cases hpd : env.parseDate ((some sc).getD "") with
      | none => rw [hpd] at h; simp at h
      | some t =>
          rw [hpd] at h
          simp only [Except.ok.injEq] at h
          subst h
          refine ⟨?_, ?_, ?_, ?_, ⟨sc, ?_⟩⟩
          · simpa [Pdf.getId, hn] using hn0
          · simpa [Pdf.getName, hsn] using hsn0
          · simpa [Pdf.getStatus, hss] using hss0
          · simpa [Pdf.getDownloadUrl, hsu] using hsu0
          · simpa [Pdf.getCreatedAt] using hpd

theorem responseToPdf_ok_inv (env : Env) (r : ApiResponse) (c : Client) (p : Pdf)
    (h : responseToPdf env.parseDate r c = .ok p) : handleInv env p := by
  unfold responseToPdf at h
  cases hok : r.ok with
  | false => simp [hok] at h
  | true =>
      simp only [hok, Bool.not_true, Bool.false_eq_true, if_false, ite_false] at h
      cases hd : r.data? with
      | none => rw [hd] at h; simp at h
      | some d =>
          rw [hd] at h
          exact fromArray_ok_inv env d c p h

/-!
Concrete fixtures used by the witness theorems: a client, raw server data
in the two statuses of the spec's end-to-end scenario, an environment with
a small file system and a mocked successful API, and an environment whose
HTTP layer always fails.
-/

/-- Test client (token and the fixed base URL). -/
def wClient : Client := ⟨"test-api-token", "https://api.generatepdfs.com"⟩

/-- Raw server data of a pending job. -/
def wData : RawPdfData :=
  ⟨some 123, some "test.pdf", some "pending", some "https://api.generatepdfs.com/dl/token",
   some "2024-01-01T12:00:00.000000Z"⟩

/-- Raw server data of the same job once completed. -/
def wDataCompleted : RawPdfData :=
  ⟨some 123, some "test.pdf", some "completed", some "https://api.generatepdfs.com/dl/token",
   some "2024-01-01T12:00:00.000000Z"⟩

/-- Environment with a three-file file system and a mocked API that answers
every request successfully (`GET /pdfs/123` reports the completed job). -/
def wEnv : Env where
  fs := fun p =>
    if p = "/tmp/test.html" then some [60, 104, 62]
    else if p = "/tmp/test.css" then some [98, 111]
    else if p = "/tmp/logo.png" then some [137, 80, 78, 71]
    else none
  post := fun _ _ => ⟨true, 200, "OK", "", some wData⟩
  get := fun e =>
    if e = "/pdfs/123" then ⟨true, 200, "OK", "", some wDataCompleted⟩
    else ⟨true, 200, "OK", "", some wData⟩
  fetchAbs := fun _ => ⟨true, 200, "OK", "", [37, 80, 68, 70]⟩
  parseDate := fun s =>
    if s = "2024-01-01T12:00:00.000000Z" then some 1704110400000 else none
  urlValid := fun u => u == "https://example.com"

/-- Environment whose HTTP layer reports status 500 with text
`ServerError` and body `boom` on every request. -/
def cexEnv : Env where
  fs := fun _ => some [60]
  post := fun _ _ => ⟨false, 500, "ServerError", "boom", none⟩
  get := fun _ => ⟨false, 500, "ServerError", "boom", none⟩
  fetchAbs := fun _ => ⟨false, 500, "ServerError", "boom", []⟩
  parseDate := fun _ => none
  urlValid := fun _ => true

/-- Handle of the pending job, as `Pdf.fromArray` builds it from `wData`. -/
def pendingPdf : Pdf :=
  ⟨123, "test.pdf", "pending", "https://api.generatepdfs.com/dl/token", 1704110400000, wClient⟩

/-- Handle of the completed job, as `Pdf.fromArray` builds it from
`wDataCompleted`. -/
def completedPdf : Pdf :=
  ⟨123, "test.pdf", "completed", "https://api.generatepdfs.com/dl/token", 1704110400000, wClient⟩

/-!
Claim theorems.
-/

/-- C1: `Pdf.fromArray` succeeds exactly when all five required fields are
present and truthy and `created_at` parses; a missing or falsy field yields
the invalid-argument error `Invalid PDF data structure`; an unparseable
`created_at` yields the invalid-argument error
`Invalid created_at format: {raw}`, produced exactly once (the source's
catch re-throws the `InvalidArgumentException` unchanged, never
re-wrapping it). -/
theorem fromArray_contract (parseDate : String → Option Int) (data : RawPdfData)
    (c : Client) :
    (data.complete = false →
       Pdf.fromArray parseDate data c
         = .error (.invalidArgument "Invalid PDF data structure"))
  ∧ (∀ raw, data.complete = true → data.created_at = some raw →
       (parseDate raw = none →
          Pdf.fromArray parseDate data c
            = .error (.invalidArgument ("Invalid created_at format: " ++ raw)))
       ∧ (∀ t, parseDate raw = some t →
            Pdf.fromArray parseDate data c
              = .ok { id := data.id.getD 0, name := data.name.getD "",
                      status := data.status.getD "",
                      downloadUrl := data.download_url.getD "",
                      createdAt := t, client := c }))
  ∧ ((∃ p, Pdf.fromArray parseDate data c = .ok p) ↔
       (data.complete = true ∧
        ∃ raw, data.created_at = some raw ∧ (parseDate raw).isSome)) := by
  refine ⟨?_, ?_, ?_⟩
  · intro h
    simp [Pdf.fromArray, h]
  · intro raw hc hca
    constructor
    · intro hp
      simp [Pdf.fromArray, hc, hca, hp]
    · intro t ht
      simp [Pdf.fromArray, hc, hca, ht]
  · constructor
    · rintro ⟨p, hp⟩
      cases hc : data.complete with
      | false => simp [Pdf.fromArray, hc] at hp
      | true =>
          refine ⟨rfl, ?_⟩
          have hca := hc
          simp only [RawPdfData.complete, Bool.and_eq_true] at hca
          obtain ⟨s, hs, _⟩ := (truthyStr_iff _).mp hca.2
          refine ⟨s, hs, ?_⟩
          rw [Pdf.fromArray] at hp
          simp only [hc, Bool.not_true, Bool.false_eq_true, if_false, ite_false, hs] at hp
          cases hpd : parseDate ((some s).getD "") with
          | none => rw [hpd] at hp; simp at hp
          | some t =>
              have hps : parseDate s = some t := by simpa using hpd
              simp [hps]
    · rintro ⟨hc, raw, hca, hsome⟩
      obtain ⟨t, ht⟩ := Option.isSome_iff_exists.mp hsome
      exact ⟨{ id := data.id.getD 0, name := data.name.getD "",
               status := data.status.getD "",
               downloadUrl := data.download_url.getD "",
               createdAt := t, client := c },
             by simp [Pdf.fromArray, hc, hca, ht]⟩

/-- Witness for C1: concrete valid data builds the expected handle after
discharging the completeness and parseability hypotheses. -/
theorem fromArray_contract_witness :
    Pdf.fromArray wEnv.parseDate wData wClient = .ok pendingPdf :=
  ((fromArray_contract wEnv.parseDate wData wClient).2.1
      "2024-01-01T12:00:00.000000Z" rfl rfl).2 1704110400000 rfl

/-- C2: `isReady` is true exactly when the status is the string
`completed` (case-sensitive); `download` on a not-ready handle fails with
the runtime error `PDF is not ready yet. Current status: {status}` without
issuing any network request, and on a ready handle delegates to the owning
client's `downloadPdf` with the handle's own download URL. -/
theorem isReady_download_contract (env : Env) (p : Pdf) :
    (p.isReady = true ↔ p.status = "completed")
  ∧ (p.status ≠ "completed" →
       Pdf.download env p
         = (.error (.runtime ("PDF is not ready yet. Current status: " ++ p.status)), []))
  ∧ (p.status = "completed" →
       Pdf.download env p = GeneratePDFs.downloadPdf env p.client p.downloadUrl) := by
  refine ⟨?_, ?_, ?_⟩
  · simp [Pdf.isReady]
  · intro h
    simp [Pdf.download, Pdf.isReady, h]
  · intro h
    simp [Pdf.download, Pdf.isReady, h]

/-- Witness for C2: the pending handle is rejected before any network
request, and the completed handle's download delegates to the client. -/
theorem isReady_download_witness :
    Pdf.download wEnv pendingPdf
      = (.error (.runtime ("PDF is not ready yet. Current status: " ++ "pending")), [])
  ∧ Pdf.download wEnv completedPdf
      = GeneratePDFs.downloadPdf wEnv completedPdf.client completedPdf.downloadUrl :=
  ⟨(isReady_download_contract wEnv pendingPdf).2.1 (by decide),
   (isReady_download_contract wEnv completedPdf).2.2 rfl⟩

/-- C5: `getPdf` rejects every non-positive id with the invalid-argument
error `Invalid PDF ID: {id}` without issuing any network request, and for
every positive id issues exactly one GET to `/pdfs/{id}`. -/
theorem getPdf_contract (env : Env) (c : Client) (id : Int) :
    (id ≤ 0 →
       GeneratePDFs.getPdf env c id
         = (.error (.invalidArgument ("Invalid PDF ID: " ++ toString id)), []))
  ∧ (0 < id →
       GeneratePDFs.getPdf env c id
         = (responseToPdf env.parseDate (env.get ("/pdfs/" ++ toString id)) c,
            [NetRequest.get ("/pdfs/" ++ toString id)])) := by
  constructor
  · intro h
    simp [GeneratePDFs.getPdf, h]
  · intro h
    simp [GeneratePDFs.getPdf, show ¬ id ≤ 0 from by omega]

/-- Witness for C5: id 0 and id −1 are rejected without a request, id 123
issues the GET. -/
theorem getPdf_witness :
    GeneratePDFs.getPdf wEnv wClient 0
      = (.error (.invalidArgument ("Invalid PDF ID: " ++ toString (0 : Int))), [])
  ∧ GeneratePDFs.getPdf wEnv wClient (-1)
      = (.error (.invalidArgument ("Invalid PDF ID: " ++ toString (-1 : Int))), [])
  ∧ GeneratePDFs.getPdf wEnv wClient 123
      = (responseToPdf wEnv.parseDate (wEnv.get ("/pdfs/" ++ toString (123 : Int))) wClient,
         [NetRequest.get ("/pdfs/" ++ toString (123 : Int))]) :=
  ⟨(getPdf_contract wEnv wClient 0).1 (by decide),
   (getPdf_contract wEnv wClient (-1)).1 (by decide),
   (getPdf_contract wEnv wClient 123).2 (by decide)⟩

/-- C3: the image-processing helper skips exactly the inputs with an empty
name, an empty path, or a nonexistent path, maps each remaining input to
its name, the base64 encoding of the file's bytes, and the MIME override
or table-resolved type, preserving input order; and the MIME resolution
follows the fixed extension table with `application/octet-stream` as the
default. -/
theorem processImages_contract (env : Env) (images : List ImageInput) :
    processImages env images
      = (images.filter (imageValid env)).map (processedOf env)
  ∧ ∀ p : String,
      detectMimeType p = specMimeOfExt (extensionOf p) :=
  ⟨processImages_filter_map env images, fun p => detectMimeType_eq_spec p⟩

/-- C4: with a readable HTML file, `generateFromHtml` always issues its
request regardless of image validity; the payload's `images` field is
omitted for an empty input list and otherwise set to the processed list,
so that an all-invalid list yields an omitted-or-empty field and never an
error — the result is determined solely by the HTTP response. -/
theorem generateFromHtml_images_contract (env : Env) (c : Client)
    (htmlPath : String) (images : List ImageInput) (hb : List Nat)
    (hhtml : env.fs htmlPath = some hb) :
    (GeneratePDFs.generateFromHtml env c htmlPath none images
       = (responseToPdf env.parseDate
            (env.post "/pdfs/generate"
              (Payload.htmlPayload (base64Encode hb) none
                (if images.isEmpty then none
                 else some (processImages env images)))) c,
          [NetRequest.post "/pdfs/generate"
            (Payload.htmlPayload (base64Encode hb) none
              (if images.isEmpty then none
               else some (processImages env images)))]))
  ∧ ((∀ img ∈ images, imageValid env img = false) →
       processImages env images = []) := by
  constructor
  · simp [GeneratePDFs.generateFromHtml, hhtml]
  · intro hinv
    rw [processImages_filter_map]
    rw [List.filter_eq_nil_iff.mpr (by simpa using hinv)]
    rfl

/-- Witness for C4: a single image with an empty name is dropped, the
request is still issued with an empty `images` field, and the call
succeeds against the mocked API. -/
theorem generateFromHtml_images_witness :
    GeneratePDFs.generateFromHtml wEnv wClient "/tmp/test.html" none
        [⟨"", "/tmp/logo.png", none⟩]
      = (responseToPdf wEnv.parseDate
           (wEnv.post "/pdfs/generate"
             (Payload.htmlPayload (base64Encode [60, 104, 62]) none (some [])))
           wClient,
         [NetRequest.post "/pdfs/generate"
           (Payload.htmlPayload (base64Encode [60, 104, 62]) none (some []))])
  ∧ processImages wEnv [⟨"", "/tmp/logo.png", none⟩] = [] := by
  have h := generateFromHtml_images_contract wEnv wClient "/tmp/test.html"
    [⟨"", "/tmp/logo.png", none⟩] [60, 104, 62] rfl
  have h2 := h.2 (by decide)
  refine ⟨?_, h2⟩
  have h1 := h.1
  rw [h2] at h1
  simpa using h1

/-- C7: `generateFromHtml` fails with
`HTML file not found or not readable: {path}` before any network request
when the HTML path is unreadable; with a provided but unreadable CSS path
it fails the same way with `CSS file not found or not readable: {path}`;
with both readable, the files' bytes are base64-encoded into the payload's
`html` and `css` fields of the issued request. -/
theorem generateFromHtml_paths_contract (env : Env) (c : Client)
    (htmlPath : String) (cssPath : Option String) (images : List ImageInput) :
    (env.fs htmlPath = none →
       GeneratePDFs.generateFromHtml env c htmlPath cssPath images
         = (.error (.invalidArgument ("HTML file not found or not readable: " ++ htmlPath)), []))
  ∧ (∀ hb cp, env.fs htmlPath = some hb → cssPath = some cp → env.fs cp = none →
       GeneratePDFs.generateFromHtml env c htmlPath cssPath images
         = (.error (.invalidArgument ("CSS file not found or not readable: " ++ cp)), []))
  ∧ (∀ hb cp cb, env.fs htmlPath = some hb → cssPath = some cp → env.fs cp = some cb →
       GeneratePDFs.generateFromHtml env c htmlPath cssPath images
         = (responseToPdf env.parseDate
              (env.post "/pdfs/generate"
                (Payload.htmlPayload (base64Encode hb) (some (base64Encode cb))
                  (if images.isEmpty then none
                   else some (processImages env images)))) c,
            [NetRequest.post "/pdfs/generate"
              (Payload.htmlPayload (base64Encode hb) (some (base64Encode cb))
                (if images.isEmpty then none
                 else some (processImages env images)))])) := by
  refine ⟨?_, ?_, ?_⟩
  · intro h
    simp [GeneratePDFs.generateFromHtml, h]
  · intro hb cp hh hc hcss
    simp [GeneratePDFs.generateFromHtml, hh, hc, hcss]
  · intro hb cp cb hh hc hcss
    simp [GeneratePDFs.generateFromHtml, hh, hc, hcss]

/-- Witness for C7: a nonexistent HTML path is rejected without a request,
a nonexistent CSS path is rejected without a request, and readable HTML
and CSS files are base64-encoded into the issued payload. -/
theorem generateFromHtml_paths_witness :
    GeneratePDFs.generateFromHtml wEnv wClient "/missing.html" none []
      = (.error (.invalidArgument ("HTML file not found or not readable: " ++ "/missing.html")), [])
  ∧ GeneratePDFs.generateFromHtml wEnv wClient "/tmp/test.html" (some "/missing.css") []
      = (.error (.invalidArgument ("CSS file not found or not readable: " ++ "/missing.css")), [])
  ∧ GeneratePDFs.generateFromHtml wEnv wClient "/tmp/test.html" (some "/tmp/test.css") []
      = (responseToPdf wEnv.parseDate
           (wEnv.post "/pdfs/generate"
             (Payload.htmlPayload (base64Encode [60, 104, 62])
               (some (base64Encode [98, 111])) none)) wClient,
         [NetRequest.post "/pdfs/generate"
           (Payload.htmlPayload (base64Encode [60, 104, 62])
             (some (base64Encode [98, 111])) none)]) := by
  refine ⟨(generateFromHtml_paths_contract wEnv wClient "/missing.html" none []).1 rfl,
          (generateFromHtml_paths_contract wEnv wClient "/tmp/test.html"
             (some "/missing.css") []).2.1 [60, 104, 62] "/missing.css" rfl rfl rfl,
          ?_⟩
  have h := (generateFromHtml_paths_contract wEnv wClient "/tmp/test.html"
    (some "/tmp/test.css") []).2.2 [60, 104, 62] "/tmp/test.css" [98, 111] rfl rfl rfl
  simpa using h

/-- C8: `generateFromUrl` fails with `Invalid URL: {url}` before any
network request exactly when the URL does not parse as syntactically
valid, and otherwise performs no further check and issues one POST of the
payload `{url}` to the generation endpoint. -/
theorem generateFromUrl_contract (env : Env) (c : Client) (url : String) :
    (env.urlValid url = false →
       GeneratePDFs.generateFromUrl env c url
         = (.error (.invalidArgument ("Invalid URL: " ++ url)), []))
  ∧ (env.urlValid url = true →
       GeneratePDFs.generateFromUrl env c url
         = (responseToPdf env.parseDate
              (env.post "/pdfs/generate" (Payload.urlPayload url)) c,
            [NetRequest.post "/pdfs/generate" (Payload.urlPayload url)])) := by
  constructor
  · intro h
    simp [GeneratePDFs.generateFromUrl, h]
  · intro h
    simp [GeneratePDFs.generateFromUrl, h]

/-- Witness for C8: `not-a-valid-url` is rejected without a request and
`https://example.com` is accepted and POSTed. -/
theorem generateFromUrl_witness :
    GeneratePDFs.generateFromUrl wEnv wClient "not-a-valid-url"
      = (.error (.invalidArgument ("Invalid URL: " ++ "not-a-valid-url")), [])
  ∧ GeneratePDFs.generateFromUrl wEnv wClient "https://example.com"
      = (responseToPdf wEnv.parseDate
           (wEnv.post "/pdfs/generate" (Payload.urlPayload "https://example.com")) wClient,
         [NetRequest.post "/pdfs/generate" (Payload.urlPayload "https://example.com")]) :=
  ⟨(generateFromUrl_contract wEnv wClient "not-a-valid-url").1 rfl,
   (generateFromUrl_contract wEnv wClient "https://example.com").2 rfl⟩

/-- C6 counterexample: at a response with status 500, status text
`ServerError`, and body `boom`, `downloadPdf` fails with the message
`Failed to download PDF: ServerError`, which contains neither the status
code nor the body text — so not every HTTP operation's transport error
carries all three diagnostics. -/
theorem downloadPdf_transport_counterexample :
    (GeneratePDFs.downloadPdf cexEnv wClient "https://api.generatepdfs.com/dl/x").1
      = .error (.generic "Failed to download PDF: ServerError")
  ∧ ¬ ("500".data <:+: ("Failed to download PDF: ServerError").data)
  ∧ ¬ ("boom".data <:+: ("Failed to download PDF: ServerError").data) :=
  ⟨rfl, by decide, by decide⟩

/-- C6 amended: on a non-success HTTP status, `generateFromHtml`,
`generateFromUrl`, and `getPdf` fail with a transport error whose message
carries the status code, the status text, and the response body text,
while `downloadPdf` fails with a transport error whose message is
`Failed to download PDF: {statusText}`, carrying only the status text. -/
theorem transport_errors_amended (env : Env) (c : Client) :
    (∀ htmlPath hb images r, env.fs htmlPath = some hb →
       env.post "/pdfs/generate"
           (Payload.htmlPayload (base64Encode hb) none
             (if images.isEmpty then none
              else some (processImages env images))) = r →
       r.ok = false →
       (GeneratePDFs.generateFromHtml env c htmlPath none images).1
           = .error (.generic (apiErrorMsg r.status r.statusText r.bodyText))
         ∧ msgCarriesAll (apiErrorMsg r.status r.statusText r.bodyText)
             r.status r.statusText r.bodyText)
  ∧ (∀ url r, env.urlValid url = true →
       env.post "/pdfs/generate" (Payload.urlPayload url) = r →
       r.ok = false →
       (GeneratePDFs.generateFromUrl env c url).1
           = .error (.generic (apiErrorMsg r.status r.statusText r.bodyText))
         ∧ msgCarriesAll (apiErrorMsg r.status r.statusText r.bodyText)
             r.status r.statusText r.bodyText)
  ∧ (∀ id : Int, ∀ r, 0 < id →
       env.get ("/pdfs/" ++ toString id) = r →
       r.ok = false →
       (GeneratePDFs.getPdf env c id).1
           = .error (.generic (apiErrorMsg r.status r.statusText r.bodyText))
         ∧ msgCarriesAll (apiErrorMsg r.status r.statusText r.bodyText)
             r.status r.statusText r.bodyText)
  ∧ (∀ dlUrl r, env.fetchAbs dlUrl = r → r.ok = false →
       (GeneratePDFs.downloadPdf env c dlUrl).1
           = .error (.generic ("Failed to download PDF: " ++ r.statusText))
         ∧ r.statusText.data <:+: ("Failed to download PDF: " ++ r.statusText).data) := by
  refine ⟨?_, ?_, ?_, ?_⟩
  · intro htmlPath hb images r hh hr hok
    refine ⟨?_, apiErrorMsg_carries _ _ _⟩
    have h1 : (GeneratePDFs.generateFromHtml env c htmlPath none images).1
        = responseToPdf env.parseDate
            (env.post "/pdfs/generate"
              (Payload.htmlPayload (base64Encode hb) none
                (if images.isEmpty then none
                 else some (processImages env images)))) c := by
      simp only [GeneratePDFs.generateFromHtml, hh]
    rw [h1, hr, responseToPdf_not_ok _ _ _ hok]
  · intro url r hu hr hok
    subst hr
    refine ⟨?_, apiErrorMsg_carries _ _ _⟩
    simp [GeneratePDFs.generateFromUrl, hu, responseToPdf_not_ok _ _ _ hok]
  · intro id r hid hr hok
    subst hr
    refine ⟨?_, apiErrorMsg_carries _ _ _⟩
    simp [GeneratePDFs.getPdf, show ¬ id ≤ 0 from by omega,
      responseToPdf_not_ok _ _ _ hok]
  · intro dlUrl r hr hok
    subst hr
    refine ⟨?_, ⟨"Failed to download PDF: ".data, [], by simp [String.data_append]⟩⟩
    simp [GeneratePDFs.downloadPdf, hok]

/-- Witness for the amended C6: against the always-failing environment,
`getPdf 7` fails with the full diagnostic message and `downloadPdf` with
the status-text-only message. -/
theorem transport_errors_amended_witness :
    (GeneratePDFs.getPdf cexEnv wClient 7).1
        = .error (.generic (apiErrorMsg 500 "ServerError" "boom"))
      ∧ msgCarriesAll (apiErrorMsg 500 "ServerError" "boom") 500 "ServerError" "boom" :=
  (transport_errors_amended cexEnv wClient).2.2.1 7
    ⟨false, 500, "ServerError", "boom", none⟩ (by decide) rfl rfl

/-- C9: `refresh` delegates to the owning client's `getPdf` with the
handle's own identifier and returns a new handle; the original handle is
immutable — its accessors still project its original fields after a
successful refresh, even one reporting a different status (immutability
holds by construction in this pure embedding, mirroring the source where
fields are assigned only in the constructor). -/
theorem refresh_contract (env : Env) (p : Pdf) :
    Pdf.refresh env p = GeneratePDFs.getPdf env p.client p.id
  ∧ (p.getId = p.id ∧ p.getName = p.name ∧ p.getStatus = p.status ∧
       p.getDownloadUrl = p.downloadUrl ∧ p.getCreatedAt = p.createdAt)
  ∧ (∀ q reqs, Pdf.refresh env p = (.ok q, reqs) → p.getStatus = p.status) :=
  ⟨rfl, ⟨rfl, rfl, rfl, rfl, rfl⟩, fun _ _ _ => rfl⟩

/-- Witness for C9: refreshing the pending handle against the mocked API
yields a new handle with status `completed` while the original handle's
status accessor still reports `pending`. -/
theorem refresh_witness :
    Pdf.refresh wEnv pendingPdf = (.ok completedPdf, [NetRequest.get "/pdfs/123"])
  ∧ pendingPdf.getStatus = "pending" :=
  ⟨rfl, (refresh_contract wEnv pendingPdf).2.2 completedPdf
          [NetRequest.get "/pdfs/123"] rfl⟩

/-- C10: every handle returned by a successful `generateFromHtml`,
`generateFromUrl`, `getPdf`, or `refresh` was built by `Pdf.fromArray`
from a present `data` field, so its id, name, status, and download URL
accessors return truthy values and its creation timestamp comes from a
successful date parse. -/
theorem handles_valid_contract (env : Env) (c : Client) :
    (∀ htmlPath cssPath images p reqs,
       GeneratePDFs.generateFromHtml env c htmlPath cssPath images = (.ok p, reqs) →
       handleInv env p)
  ∧ (∀ url p reqs,
       GeneratePDFs.generateFromUrl env c url = (.ok p, reqs) → handleInv env p)
  ∧ (∀ id p reqs,
       GeneratePDFs.getPdf env c id = (.ok p, reqs) → handleInv env p)
  ∧ (∀ q p reqs,
       Pdf.refresh env q = (.ok p, reqs) → handleInv env p) := by
  have hget : ∀ c₂ id p reqs,
      GeneratePDFs.getPdf env c₂ id = (.ok p, reqs) → handleInv env p := by
    intro c₂ id p reqs h
    unfold GeneratePDFs.getPdf at h
    by_cases hid : id ≤ 0
    · simp [hid] at h
    · rw [if_neg hid] at h
      exact responseToPdf_ok_inv env _ c₂ p (congrArg Prod.fst h)
  refine ⟨?_, ?_, fun id p reqs h => hget c id p reqs h,
          fun q p reqs h => hget q.client q.id p reqs h⟩
  · intro htmlPath cssPath images p reqs h
    unfold GeneratePDFs.generateFromHtml at h
    cases hfs : env.fs htmlPath with
    | none => rw [hfs] at h; simp at h
    | some hb =>
        rw [hfs] at h
        cases cssPath with
        | none =>
            simp only at h
            exact responseToPdf_ok_inv env _ c p (congrArg Prod.fst h)
        | some cp =>
            simp only at h
            cases hcss : env.fs cp with
            | none => rw [hcss] at h; simp at h
            | some cb =>
                rw [hcss] at h
                simp only at h
                exact responseToPdf_ok_inv env _ c p (congrArg Prod.fst h)
  · intro url p reqs h
    unfold GeneratePDFs.generateFromUrl at h
    by_cases hu : env.urlValid url
    · rw [hu] at h
      simp only [Bool.not_true, Bool.false_eq_true, if_false, ite_false] at h
      exact responseToPdf_ok_inv env _ c p (congrArg Prod.fst h)
    · simp [Bool.not_eq_true] at hu
      simp [hu] at h

/-- Witness for C10: the handle obtained from `getPdf 123` against the
mocked API satisfies the invariant. -/
theorem handles_valid_witness : handleInv wEnv completedPdf :=
  (handles_valid_contract wEnv wClient).2.2.1 123 completedPdf
    [NetRequest.get ("/pdfs/" ++ toString (123 : Int))] rfl

/-- Witness for C3: of three inputs — a valid PNG, one with an empty name,
and one with a missing file — exactly the valid one survives, mapped to
its base64 content and the table-resolved `image/png`. -/
theorem processImages_contract_witness :
    processImages wEnv
        [⟨"logo.png", "/tmp/logo.png", none⟩, ⟨"", "/tmp/logo.png", none⟩,
         ⟨"x.bin", "/missing.bin", none⟩]
      = [⟨"logo.png", base64Encode [137, 80, 78, 71], "image/png"⟩] :=
  ((processImages_contract wEnv
      [⟨"logo.png", "/tmp/logo.png", none⟩, ⟨"", "/tmp/logo.png", none⟩,
       ⟨"x.bin", "/missing.bin", none⟩]).1).trans (by decide)
